import Mathlib

/-!
# AI Engine driver, low level layer (`xaielib.c`)

A shallow embedding of the platform dispatch layer of the AIE driver.  Every
function of `xaielib.c` selects one of three bodies with the preprocessor
(`__AIESIM__`, `__AIEBAREMTL__`, neither); here the selected target is an
explicit argument `b : Backend` and each function is a `match` on it, one arm
per preprocessor branch, in the order of the source.

Machine integers are natural numbers; a `u32` result is reduced modulo `2^32`
and a `u64` address sum modulo `2^64` where the C types truncate.  Pointers are
natural numbers with `0` for `NULL`.  The memory behind a `u32 *` argument is a
function from element index to word.

The device is a `World`: the word store behind the register interface and the
list of backend routines called so far, oldest first.
-/

namespace XAieLib

/-- The build target: which preprocessor branch of each function is compiled. -/
inductive Backend where
  /-- Built with `__AIESIM__`. -/
  | sim
  /-- Built with `__AIEBAREMTL__` (and without `__AIESIM__`). -/
  | baremetal
  /-- Built with neither: the `#else` branch, a hosted application. -/
  | linux
  deriving DecidableEq, Repr

/-- One call of a routine that lives outside `xaielib.c`, with its arguments. -/
inductive Call where
  | XAieSim_AssertNonvoid (Cond : Nat)
  | Xil_AssertNonvoid (Cond : Nat)
  | XAieSim_LoadElf (TileInstPtr ElfPtr LoadSym : Nat)
  | XAieTileProc_LoadElfFile (TileInstPtr ElfPtr LoadSym : Nat)
  | printf (Format : String) (args : List Nat)
  | xil_printf (Format : String) (args : List Nat)
  | vprintf (Format : String) (argptr : List Nat)
  | XAieIO_MemInit (idx : Nat)
  | XAieIO_MemGetSize (MemInstPtr : Nat)
  | XAieIO_MemGetVaddr (MemInstPtr : Nat)
  | XAieIO_MemGetPaddr (MemInstPtr : Nat)
  | XAieIO_MemRead32 (MemInstPtr Addr : Nat)
  | XAieSim_Read32 (Addr : Nat)
  | Xil_In32 (Addr : Nat)
  | XAieIO_Read32 (Addr : Nat)
  | XAieSim_Write32 (Addr Data : Nat)
  | Xil_Out32 (Addr Data : Nat)
  | XAieIO_Write32 (Addr Data : Nat)
  | XAieSim_MaskWrite32 (Addr Mask Data : Nat)
  | XAieSim_Write128 (Addr : Nat) (Data : List Nat)
  | XAieIO_Write128 (Addr : Nat) (Data : List Nat)
  deriving DecidableEq, Repr

/-- The device word store: address to word. -/
abbrev Store := Nat → Nat

/-- A caller-owned `u32` buffer, seen through a `u32 *`: element index to word. -/
abbrev Buf := Nat → Nat

/-- The state outside the facade: device store and the backend calls made. -/
structure World where
  dev : Store
  calls : List Call

/-- Record a backend call at the end of the call list. -/
def World.log (w : World) (c : Call) : World :=
  { w with calls := w.calls ++ [c] }

/-- Assignment `Data[Idx] = v` into a buffer. -/
def bufSet (Data : Buf) (Idx v : Nat) : Buf :=
  fun j => if j = Idx then v else Data j

/-- The C expression `~x` on a `u32`. -/
def not32 (x : Nat) : Nat := 4294967295 - x % 4294967296

/-- The parts of the headers and backends that `xaielib.c` uses and whose
behaviour the facade does not fix: they are parameters of the embedding.
An assertion routine either gives control back (`some`, with the store it
leaves) or does not (`none`). -/
structure Ext where
  XAIELIB_FAILURE : Nat
  XAieSim_AssertNonvoid : Nat → Store → Option Store
  Xil_AssertNonvoid : Nat → Store → Option Store
  XAieSim_LoadElf : Nat → Nat → Nat → Store → Nat × Store
  XAieTileProc_LoadElfFile : Nat → Nat → Nat → Store → Nat × Store
  XAieIO_MemInit : Nat → Store → Nat × Store
  XAieIO_MemGetSize : Nat → Store → Nat
  XAieIO_MemGetVaddr : Nat → Store → Nat
  XAieIO_MemGetPaddr : Nat → Store → Nat
  XAieIO_MemRead32 : Nat → Nat → Store → Nat
  XAieSim_MaskWrite32 : Nat → Nat → Nat → Store → Store

/-! ## Backend register access -/

/-- Modelled from the spec: the word a backend 32-bit read returns, the word
last written at that address of the store, as a `u32`. -/
def devRead32 (s : Store) (Addr : Nat) : Nat := s Addr % 4294967296

/-- Modelled from the spec: the store after a backend 32-bit write. -/
def devWrite32 (s : Store) (Addr Data : Nat) : Store :=
  fun a => if a = Addr then Data % 4294967296 else s a

/-- Modelled from the spec: the store after a backend 128-bit write, which puts
word `i` of the buffer at `Addr + 4*i` (a `u64` sum) for `i = 0, 1, 2, 3`. -/
def devWrite128 (s : Store) (Addr : Nat) (Data : Buf) : Store :=
  (List.range 4).foldl
    (fun st i => devWrite32 st ((Addr + 4 * i) % 18446744073709551616) (Data i)) s

/-- Modelled from the spec: `XAieSim_Read32` of `xaiesim.h`, which is not in
the source tree. -/
def XAieSim_Read32 (Addr : Nat) (w : World) : Nat × World :=
  (devRead32 w.dev Addr, w.log (Call.XAieSim_Read32 Addr))

/-- Modelled from the spec: `Xil_In32` of `xil_io.h`, which is not in the
source tree. -/
def Xil_In32 (Addr : Nat) (w : World) : Nat × World :=
  (devRead32 w.dev Addr, w.log (Call.Xil_In32 Addr))

/-- Modelled from the spec: `XAieIO_Read32` of `xaieio.h`, which is not in the
source tree. -/
def XAieIO_Read32 (Addr : Nat) (w : World) : Nat × World :=
  (devRead32 w.dev Addr, w.log (Call.XAieIO_Read32 Addr))

/-- Modelled from the spec: `XAieSim_Write32` of `xaiesim.h`, which is not in
the source tree. -/
def XAieSim_Write32 (Addr Data : Nat) (w : World) : World :=
  { dev := devWrite32 w.dev Addr Data, calls := w.calls ++ [Call.XAieSim_Write32 Addr Data] }

/-- Modelled from the spec: `Xil_Out32` of `xil_io.h`, which is not in the
source tree. -/
def Xil_Out32 (Addr Data : Nat) (w : World) : World :=
  { dev := devWrite32 w.dev Addr Data, calls := w.calls ++ [Call.Xil_Out32 Addr Data] }

/-- Modelled from the spec: `XAieIO_Write32` of `xaieio.h`, which is not in the
source tree. -/
def XAieIO_Write32 (Addr Data : Nat) (w : World) : World :=
  { dev := devWrite32 w.dev Addr Data, calls := w.calls ++ [Call.XAieIO_Write32 Addr Data] }

/-- Modelled from the spec: `XAieSim_Write128` of `xaiesim.h`, which is not in
the source tree. -/
def XAieSim_Write128 (Addr : Nat) (Data : Buf) (w : World) : World :=
  { dev := devWrite128 w.dev Addr Data,
    calls := w.calls ++ [Call.XAieSim_Write128 Addr [Data 0, Data 1, Data 2, Data 3]] }

/-- Modelled from the spec: `XAieIO_Write128` of `xaieio.h`, which is not in
the source tree. -/
def XAieIO_Write128 (Addr : Nat) (Data : Buf) (w : World) : World :=
  { dev := devWrite128 w.dev Addr Data,
    calls := w.calls ++ [Call.XAieIO_Write128 Addr [Data 0, Data 1, Data 2, Data 3]] }

/-! ## The functions of `xaielib.c` -/

/-- Function `u32 XAieLib_AssertNonvoid(u8 Cond)`: the backend assertion, then
`return 0`.  The result is `none` when the backend assertion keeps control. -/
def XAieLib_AssertNonvoid (ext : Ext) (b : Backend) (Cond : Nat) (w : World) :
    Option (Nat × World) :=
  match b with
  | .sim =>
    match ext.XAieSim_AssertNonvoid Cond w.dev with
    | none => none
    | some d => some (0, { dev := d, calls := w.calls ++ [Call.XAieSim_AssertNonvoid Cond] })
  | .baremetal =>
    match ext.Xil_AssertNonvoid Cond w.dev with
    | none => none
    | some d => some (0, { dev := d, calls := w.calls ++ [Call.Xil_AssertNonvoid Cond] })
  | .linux => some (0, w)

/-- Function `u32 XAieLib_LoadElf(XAieGbl_Tile *TileInstPtr, u8 *ElfPtr, u8 LoadSym)`. -/
def XAieLib_LoadElf (ext : Ext) (b : Backend) (TileInstPtr ElfPtr LoadSym : Nat)
    (w : World) : Nat × World :=
  match b with
  | .sim =>
    let r := ext.XAieSim_LoadElf TileInstPtr ElfPtr LoadSym w.dev
    (r.1, { dev := r.2,
            calls := w.calls ++ [Call.XAieSim_LoadElf TileInstPtr ElfPtr LoadSym] })
  | .baremetal => (ext.XAIELIB_FAILURE, w)
  | .linux =>
    let r := ext.XAieTileProc_LoadElfFile TileInstPtr ElfPtr LoadSym w.dev
    (r.1, { dev := r.2,
            calls := w.calls ++ [Call.XAieTileProc_LoadElfFile TileInstPtr ElfPtr LoadSym] })

/-- Function `void XAieLib_IntPrint(const char *Format, ...)`; `args` are the values the
caller passes for the ellipsis. -/
def XAieLib_IntPrint (b : Backend) (Format : String) (args : List Nat) (w : World) :
    World :=
  match b with
  | .sim => w.log (Call.printf Format [])
  | .baremetal => w.log (Call.xil_printf Format [])
  | .linux =>
    let argptr := args
    w.log (Call.vprintf Format argptr)

/-- Function `XAieLib_MemInst *XAieLib_MemInit(u8 idx)`. -/
def XAieLib_MemInit (ext : Ext) (b : Backend) (idx : Nat) (w : World) : Nat × World :=
  match b with
  | .sim => (0, w)
  | .baremetal => (0, w)
  | .linux =>
    let r := ext.XAieIO_MemInit idx w.dev
    (r.1, { dev := r.2, calls := w.calls ++ [Call.XAieIO_MemInit idx] })

/-- Function `u64 XAieLib_MemGetSize(XAieLib_MemInst *XAieLib_MemInstPtr)`. -/
def XAieLib_MemGetSize (ext : Ext) (b : Backend) (XAieLib_MemInstPtr : Nat) (w : World) :
    Nat × World :=
  match b with
  | .sim => (0, w)
  | .baremetal => (0, w)
  | .linux =>
    let MemInstPtr := XAieLib_MemInstPtr
    (ext.XAieIO_MemGetSize MemInstPtr w.dev, w.log (Call.XAieIO_MemGetSize MemInstPtr))

/-- Function `u64 XAieLib_MemGetVaddr(XAieLib_MemInst *XAieLib_MemInstPtr)`. -/
def XAieLib_MemGetVaddr (ext : Ext) (b : Backend) (XAieLib_MemInstPtr : Nat) (w : World) :
    Nat × World :=
  match b with
  | .sim => (0, w)
  | .baremetal => (0, w)
  | .linux =>
    let MemInstPtr := XAieLib_MemInstPtr
    (ext.XAieIO_MemGetVaddr MemInstPtr w.dev, w.log (Call.XAieIO_MemGetVaddr MemInstPtr))

/-- Function `u64 XAieLib_MemGetPaddr(XAieLib_MemInst *XAieLib_MemInstPtr)`. -/
def XAieLib_MemGetPaddr (ext : Ext) (b : Backend) (XAieLib_MemInstPtr : Nat) (w : World) :
    Nat × World :=
  match b with
  | .sim => (0, w)
  | .baremetal => (0, w)
  | .linux =>
    let MemInstPtr := XAieLib_MemInstPtr
    (ext.XAieIO_MemGetPaddr MemInstPtr w.dev, w.log (Call.XAieIO_MemGetPaddr MemInstPtr))

/-- Function `u32 XAieLib_MemRead32(XAieLib_MemInst *XAieLib_MemInstPtr, u64 Addr)`. -/
def XAieLib_MemRead32 (ext : Ext) (b : Backend) (XAieLib_MemInstPtr Addr : Nat)
    (w : World) : Nat × World :=
  match b with
  | .sim => (0, w)
  | .baremetal => (0, w)
  | .linux =>
    let MemInstPtr := XAieLib_MemInstPtr
    (ext.XAieIO_MemRead32 MemInstPtr Addr w.dev,
      w.log (Call.XAieIO_MemRead32 MemInstPtr Addr))

/-- Function `u32 XAieLib_Read32(u64 Addr)`. -/
def XAieLib_Read32 (b : Backend) (Addr : Nat) (w : World) : Nat × World :=
  match b with
  | .sim => XAieSim_Read32 Addr w
  | .baremetal => Xil_In32 Addr w
  | .linux => XAieIO_Read32 Addr w

/-- The body of the `for` loop of `XAieLib_Read128`, at one value of `Idx`.
`Idx*4U` is an `unsigned int` product and `Addr + Idx*4U` a `u64` sum. -/
def Read128_body (b : Backend) (Addr Idx : Nat) (Data : Buf) (w : World) : Buf × World :=
  match b with
  | .sim =>
    let r := XAieSim_Read32 ((Addr + Idx * 4 % 4294967296) % 18446744073709551616) w
    (bufSet Data Idx r.1, r.2)
  | .baremetal => (Data, w)
  | .linux =>
    let r := XAieIO_Read32 ((Addr + Idx * 4 % 4294967296) % 18446744073709551616) w
    (bufSet Data Idx r.1, r.2)

/-- The loop `for(Idx = 0U; Idx < 4U; Idx++)` of `XAieLib_Read128`, from the
state before a test of `Idx < 4U`: `n` counts the iterations done so far and
`Idx++` is a `u8` increment.  One unit of fuel pays for one test of the loop
condition; `none` is fuel exhausted. -/
def Read128_loop (b : Backend) (Addr : Nat) :
    Nat → Nat → Nat → Buf → World → Option (Nat × Buf × World)
  | 0, _, _, _, _ => none
  | fuel + 1, Idx, n, Data, w =>
    if Idx < 4 then
      let r := Read128_body b Addr Idx Data w
      Read128_loop b Addr fuel ((Idx + 1) % 256) (n + 1) r.1 r.2
    else
      some (n, Data, w)

/-- Function `void XAieLib_Read128(u64 Addr, u32 *Data)`: the number of loop iterations
run, the buffer and the world on return. -/
def XAieLib_Read128 (b : Backend) (fuel : Nat) (Addr : Nat) (Data : Buf) (w : World) :
    Option (Nat × Buf × World) :=
  Read128_loop b Addr fuel 0 0 Data w

/-- Function `void XAieLib_Write32(u64 Addr, u32 Data)`. -/
def XAieLib_Write32 (b : Backend) (Addr Data : Nat) (w : World) : World :=
  match b with
  | .sim => XAieSim_Write32 Addr Data w
  | .baremetal => Xil_Out32 Addr Data w
  | .linux => XAieIO_Write32 Addr Data w

/-- Function `void XAieLib_MaskWrite32(u64 Addr, u32 Mask, u32 Data)`. -/
def XAieLib_MaskWrite32 (ext : Ext) (b : Backend) (Addr Mask Data : Nat) (w : World) :
    World :=
  match b with
  | .sim =>
    { dev := ext.XAieSim_MaskWrite32 Addr Mask Data w.dev,
      calls := w.calls ++ [Call.XAieSim_MaskWrite32 Addr Mask Data] }
  | .baremetal =>
    let r := Xil_In32 Addr w
    let RegVal := r.1
    let RegVal := RegVal &&& not32 Mask
    let RegVal := RegVal ||| Data
    Xil_Out32 Addr RegVal r.2
  | .linux =>
    let r := XAieIO_Read32 Addr w
    let RegVal := r.1
    let RegVal := RegVal &&& not32 Mask
    let RegVal := RegVal ||| Data
    XAieIO_Write32 Addr RegVal r.2

/-- Function `void XAieLib_Write128(u64 Addr, u32 *Data)`. -/
def XAieLib_Write128 (b : Backend) (Addr : Nat) (Data : Buf) (w : World) : World :=
  match b with
  | .sim => XAieSim_Write128 Addr Data w
  | .baremetal => w
  | .linux => XAieIO_Write128 Addr Data w

/-- An empty device: every word zero, no backend call made. -/
def World.empty : World := { dev := fun _ => 0, calls := [] }

/-- A backend environment for examples: assertions return, loaders report 0. -/
def Ext.sample : Ext where
  XAIELIB_FAILURE := 1
  XAieSim_AssertNonvoid := fun _ s => some s
  Xil_AssertNonvoid := fun _ s => some s
  XAieSim_LoadElf := fun _ _ _ s => (0, s)
  XAieTileProc_LoadElfFile := fun _ _ _ s => (0, s)
  XAieIO_MemInit := fun _ s => (0, s)
  XAieIO_MemGetSize := fun _ _ => 0
  XAieIO_MemGetVaddr := fun _ _ => 0
  XAieIO_MemGetPaddr := fun _ _ => 0
  XAieIO_MemRead32 := fun _ _ _ => 0
  XAieSim_MaskWrite32 := fun _ _ _ s => s

/-! ## Auxiliary facts -/

theorem devRead32_devWrite32_same (s : Store) (Addr Data : Nat) :
    devRead32 (devWrite32 s Addr Data) Addr = Data % 4294967296 := by
  simp [devRead32, devWrite32]

theorem devRead32_devWrite32_other (s : Store) (Addr Data a : Nat) (h : a ≠ Addr) :
    devRead32 (devWrite32 s Addr Data) a = devRead32 s a := by
  simp [devRead32, devWrite32, h]

theorem testBit_not32 (x i : Nat) :
    (not32 x).testBit i = (decide (i < 32) && !x.testBit i) := by
  have h : x % 4294967296 < 2 ^ 32 := by omega
  have e : not32 x = 2 ^ 32 - (x % 4294967296 + 1) := by
    unfold not32
    omega
  have m : (4294967296 : Nat) = 2 ^ 32 := by norm_num
  rw [e, Nat.testBit_two_pow_sub_succ h, m, Nat.testBit_mod_two_pow]
  by_cases hi : i < 32 <;> simp [hi]

theorem testBit_of_lt_u32 {x i : Nat} (hx : x < 4294967296) (hi : 32 ≤ i) :
    x.testBit i = false := by
  apply Nat.testBit_lt_two_pow
  calc x < 2 ^ 32 := by omega
    _ ≤ 2 ^ i := Nat.pow_le_pow_right (by decide) hi

theorem maskExpr_lt (old Mask : Nat) {Data : Nat} (hd : Data < 4294967296) :
    (old &&& not32 Mask) ||| Data < 4294967296 := by
  have m : (4294967296 : Nat) = 2 ^ 32 := by norm_num
  rw [m] at hd ⊢
  exact Nat.or_lt_two_pow (Nat.and_lt_two_pow _ (by unfold not32; omega)) hd

theorem read32_fst (b : Backend) (Addr : Nat) (w : World) :
    (XAieLib_Read32 b Addr w).1 = devRead32 w.dev Addr := by
  cases b <;> rfl

theorem maskWrite32_dev (ext : Ext) (b : Backend) (hb : b ≠ Backend.sim)
    (Addr Mask Data : Nat) (w : World) :
    (XAieLib_MaskWrite32 ext b Addr Mask Data w).dev
      = devWrite32 w.dev Addr ((devRead32 w.dev Addr &&& not32 Mask) ||| Data) := by
  cases b with
  | sim => exact absurd rfl hb
  | baremetal => rfl
  | linux => rfl

theorem maskWrite32_then_read32_aux (ext : Ext) (b : Backend) (hb : b ≠ Backend.sim)
    (Addr Mask Data : Nat) (w : World) (hData : Data < 4294967296) :
    (XAieLib_Read32 b Addr (XAieLib_MaskWrite32 ext b Addr Mask Data w)).1
      = ((XAieLib_Read32 b Addr w).1 &&& not32 Mask) ||| Data := by
  rw [read32_fst, read32_fst, maskWrite32_dev ext b hb, devRead32_devWrite32_same]
  exact Nat.mod_eq_of_lt (maskExpr_lt _ Mask hData)

/-! ## Mask write and 32-bit round trip -/

/-- C1: on the bare-metal and the hosted backend, with `old` the word that
`XAieLib_Read32(Addr)` returns beforehand, `XAieLib_Read32(Addr)` after
`XAieLib_MaskWrite32(Addr, Mask, Data)` returns `(old & ~Mask) | Data`. -/
theorem maskWrite32_then_read32 (ext : Ext) (b : Backend) (hb : b ≠ Backend.sim)
    (Addr Mask Data old : Nat) (w : World) (hData : Data < 4294967296)
    (hold : (XAieLib_Read32 b Addr w).1 = old) :
    (XAieLib_Read32 b Addr (XAieLib_MaskWrite32 ext b Addr Mask Data w)).1
      = (old &&& not32 Mask) ||| Data := by
  rw [maskWrite32_then_read32_aux ext b hb Addr Mask Data w hData, hold]

theorem maskWrite32_then_read32_witness :
    (XAieLib_Read32 Backend.baremetal 16
        (XAieLib_MaskWrite32 Ext.sample Backend.baremetal 16 0xF0 0x30
          (XAieLib_Write32 Backend.baremetal 16 0xAB World.empty))).1
      = (0xAB &&& not32 0xF0) ||| 0x30 :=
  maskWrite32_then_read32 Ext.sample Backend.baremetal (by decide) 16 0xF0 0x30 0xAB
    (XAieLib_Write32 Backend.baremetal 16 0xAB World.empty) (by decide) (by decide)

/-- C2: on each of the three backends, `XAieLib_Read32(Addr)` after
`XAieLib_Write32(Addr, d)` returns `d`, for every address and every 32-bit
`d`. -/
theorem write32_then_read32 (b : Backend) (Addr d : Nat) (w : World)
    (hd : d < 4294967296) :
    (XAieLib_Read32 b Addr (XAieLib_Write32 b Addr d w)).1 = d := by
  rw [read32_fst]
  have e : (XAieLib_Write32 b Addr d w).dev = devWrite32 w.dev Addr d := by
    cases b <;> rfl
  rw [e, devRead32_devWrite32_same]
  exact Nat.mod_eq_of_lt hd

theorem write32_then_read32_witness :
    (XAieLib_Read32 Backend.sim 0x20000 (XAieLib_Write32 Backend.sim 0x20000 0xDEADBEEF
      World.empty)).1 = 0xDEADBEEF :=
  write32_then_read32 Backend.sim 0x20000 0xDEADBEEF World.empty (by decide)

theorem and_not32_or (old Mask Data : Nat) :
    ((old &&& not32 Mask) ||| Data) &&& not32 Mask = (old ||| Data) &&& not32 Mask := by
  apply Nat.eq_of_testBit_eq
  intro i
  simp only [Nat.testBit_and, Nat.testBit_or, testBit_not32]
  cases old.testBit i <;> cases Data.testBit i <;> cases Mask.testBit i <;>
    cases decide (i < 32) <;> rfl

theorem and_mask_or (old Mask Data : Nat) :
    ((old &&& not32 Mask) ||| Data) &&& Mask = Data &&& Mask := by
  apply Nat.eq_of_testBit_eq
  intro i
  simp only [Nat.testBit_and, Nat.testBit_or, testBit_not32]
  cases old.testBit i <;> cases Data.testBit i <;> cases Mask.testBit i <;>
    cases decide (i < 32) <;> rfl

theorem and_mask_eq_iff {Mask Data : Nat} (hData : Data < 4294967296) :
    Data &&& Mask = Data ↔ Data &&& not32 Mask = 0 := by
  constructor
  · intro h
    apply Nat.eq_of_testBit_eq
    intro i
    have hi := congrArg (fun x => Nat.testBit x i) h
    simp only [Nat.testBit_and] at hi
    simp only [Nat.testBit_and, testBit_not32, Nat.zero_testBit]
    revert hi
    cases Data.testBit i <;> cases Mask.testBit i <;> cases decide (i < 32) <;> simp
  · intro h
    apply Nat.eq_of_testBit_eq
    intro i
    have hi := congrArg (fun x => Nat.testBit x i) h
    simp only [Nat.testBit_and, testBit_not32, Nat.zero_testBit] at hi
    simp only [Nat.testBit_and]
    by_cases h32 : i < 32
    · simp only [h32, decide_True, Bool.true_and] at hi
      revert hi
      cases Data.testBit i <;> cases Mask.testBit i <;> simp
    · rw [testBit_of_lt_u32 hData (by omega)]
      rfl

/-- C10: on the bare-metal and the hosted backend `XAieLib_MaskWrite32` ORs
`Data` in unmasked.  With `old` and `new` the words `XAieLib_Read32(Addr)`
returns before and after: `new & ~Mask == (old | Data) & ~Mask`; the two
equations `new & Mask == Data` and `new & ~Mask == old & ~Mask` hold together
exactly when `Data & ~Mask == 0`; every other address keeps its word. -/
theorem maskWrite32_unmasked_data (ext : Ext) (b : Backend) (hb : b ≠ Backend.sim)
    (Addr Mask Data : Nat) (w : World) (hData : Data < 4294967296) :
    (XAieLib_Read32 b Addr (XAieLib_MaskWrite32 ext b Addr Mask Data w)).1 &&& not32 Mask
        = ((XAieLib_Read32 b Addr w).1 ||| Data) &&& not32 Mask
    ∧ (((XAieLib_Read32 b Addr (XAieLib_MaskWrite32 ext b Addr Mask Data w)).1 &&& Mask = Data
          ∧ (XAieLib_Read32 b Addr (XAieLib_MaskWrite32 ext b Addr Mask Data w)).1 &&& not32 Mask
              = (XAieLib_Read32 b Addr w).1 &&& not32 Mask)
        ↔ Data &&& not32 Mask = 0)
    ∧ ∀ a, a ≠ Addr →
        (XAieLib_MaskWrite32 ext b Addr Mask Data w).dev a = w.dev a := by
  have hnew : (XAieLib_Read32 b Addr (XAieLib_MaskWrite32 ext b Addr Mask Data w)).1
      = ((XAieLib_Read32 b Addr w).1 &&& not32 Mask) ||| Data :=
    maskWrite32_then_read32_aux ext b hb Addr Mask Data w hData
  generalize (XAieLib_Read32 b Addr w).1 = old at hnew
  rw [hnew]
  refine ⟨and_not32_or old Mask Data, ?_, ?_⟩
  · rw [and_mask_or, and_not32_or]
    constructor
    · intro h
      exact (and_mask_eq_iff hData).mp h.1
    · intro h
      refine ⟨(and_mask_eq_iff hData).mpr h, ?_⟩
      apply Nat.eq_of_testBit_eq
      intro i
      have hi := congrArg (fun x => Nat.testBit x i) h
      simp only [Nat.testBit_and, testBit_not32, Nat.zero_testBit] at hi
      simp only [Nat.testBit_and, Nat.testBit_or, testBit_not32]
      revert hi
      cases old.testBit i <;> cases Data.testBit i <;> cases Mask.testBit i <;>
        cases decide (i < 32) <;> simp
  · intro a ha
    rw [maskWrite32_dev ext b hb]
    simp [devWrite32, ha]

theorem maskWrite32_unmasked_data_witness :
    (XAieLib_Read32 Backend.linux 16
        (XAieLib_MaskWrite32 Ext.sample Backend.linux 16 0x0F 0x35
          (XAieLib_Write32 Backend.linux 16 0xC8 World.empty))).1 &&& not32 0x0F
        = ((XAieLib_Read32 Backend.linux 16
            (XAieLib_Write32 Backend.linux 16 0xC8 World.empty)).1 ||| 0x35) &&& not32 0x0F :=
  (maskWrite32_unmasked_data Ext.sample Backend.linux (by decide) 16 0x0F 0x35
    (XAieLib_Write32 Backend.linux 16 0xC8 World.empty) (by decide)).1

/-! ## The 128-bit read loop -/

theorem read128_loop_unroll (b : Backend) (fuel Addr : Nat) (Data : Buf) (w : World) :
    Read128_loop b Addr (fuel + 5) 0 0 Data w
      = some (4,
          (Read128_body b Addr 3
            (Read128_body b Addr 2
              (Read128_body b Addr 1
                (Read128_body b Addr 0 Data w).1 (Read128_body b Addr 0 Data w).2).1
              (Read128_body b Addr 1
                (Read128_body b Addr 0 Data w).1 (Read128_body b Addr 0 Data w).2).2).1
            (Read128_body b Addr 2
              (Read128_body b Addr 1
                (Read128_body b Addr 0 Data w).1 (Read128_body b Addr 0 Data w).2).1
              (Read128_body b Addr 1
                (Read128_body b Addr 0 Data w).1 (Read128_body b Addr 0 Data w).2).2).2)) := by
  simp [Read128_loop]

/-- What `XAieLib_Read128` leaves on the two backends that read: four iterations,
the four words of the store in elements 0 to 3, the store as it was. -/
theorem read128_result (b : Backend) (hb : b ≠ Backend.baremetal) (fuel Addr : Nat)
    (Data : Buf) (w : World) :
    ∃ w', XAieLib_Read128 b (fuel + 5) Addr Data w
        = some (4,
            bufSet (bufSet (bufSet (bufSet Data
              0 (devRead32 w.dev (Addr % 18446744073709551616)))
              1 (devRead32 w.dev ((Addr + 4) % 18446744073709551616)))
              2 (devRead32 w.dev ((Addr + 8) % 18446744073709551616)))
              3 (devRead32 w.dev ((Addr + 12) % 18446744073709551616)), w')
      ∧ w'.dev = w.dev := by
  unfold XAieLib_Read128
  rw [read128_loop_unroll]
  cases b with
  | sim => exact ⟨_, rfl, rfl⟩
  | baremetal => exact absurd rfl hb
  | linux => exact ⟨_, rfl, rfl⟩

theorem devWrite128_eq (s : Store) (Addr : Nat) (Data : Buf) :
    devWrite128 s Addr Data
      = devWrite32 (devWrite32 (devWrite32 (devWrite32 s
          (Addr % 18446744073709551616) (Data 0))
          ((Addr + 4) % 18446744073709551616) (Data 1))
          ((Addr + 8) % 18446744073709551616) (Data 2))
          ((Addr + 12) % 18446744073709551616) (Data 3) := by
  simp [devWrite128, List.range, List.range.loop]

theorem devRead32_devWrite128 (s : Store) (Addr : Nat) (Data : Buf) :
    devRead32 (devWrite128 s Addr Data) (Addr % 18446744073709551616)
        = Data 0 % 4294967296
    ∧ devRead32 (devWrite128 s Addr Data) ((Addr + 4) % 18446744073709551616)
        = Data 1 % 4294967296
    ∧ devRead32 (devWrite128 s Addr Data) ((Addr + 8) % 18446744073709551616)
        = Data 2 % 4294967296
    ∧ devRead32 (devWrite128 s Addr Data) ((Addr + 12) % 18446744073709551616)
        = Data 3 % 4294967296 := by
  rw [devWrite128_eq]
  have h01 : Addr % 18446744073709551616 ≠ (Addr + 4) % 18446744073709551616 := by omega
  have h02 : Addr % 18446744073709551616 ≠ (Addr + 8) % 18446744073709551616 := by omega
  have h03 : Addr % 18446744073709551616 ≠ (Addr + 12) % 18446744073709551616 := by omega
  have h12 : (Addr + 4) % 18446744073709551616 ≠ (Addr + 8) % 18446744073709551616 := by
    omega
  have h13 : (Addr + 4) % 18446744073709551616 ≠ (Addr + 12) % 18446744073709551616 := by
    omega
  have h23 : (Addr + 8) % 18446744073709551616 ≠ (Addr + 12) % 18446744073709551616 := by
    omega
  refine ⟨?_, ?_, ?_, ?_⟩
  · rw [devRead32_devWrite32_other _ _ _ _ h03, devRead32_devWrite32_other _ _ _ _ h02,
      devRead32_devWrite32_other _ _ _ _ h01, devRead32_devWrite32_same]
  · rw [devRead32_devWrite32_other _ _ _ _ h13, devRead32_devWrite32_other _ _ _ _ h12,
      devRead32_devWrite32_same]
  · rw [devRead32_devWrite32_other _ _ _ _ h23, devRead32_devWrite32_same]
  · rw [devRead32_devWrite32_same]

theorem write128_dev (b : Backend) (hb : b ≠ Backend.baremetal) (Addr : Nat) (Data : Buf)
    (w : World) : (XAieLib_Write128 b Addr Data w).dev = devWrite128 w.dev Addr Data := by
  cases b with
  | sim => rfl
  | baremetal => exact absurd rfl hb
  | linux => rfl

/-- C3: on the simulator and the hosted backend, `XAieLib_Write128(Addr, buf)`
followed by `XAieLib_Read128(Addr, out)` returns, after four iterations, with
`out[i] == buf[i]` for `i = 0, 1, 2, 3`, for every address, every buffer of
32-bit words and every earlier content of `out`. -/
theorem write128_then_read128 (b : Backend) (hb : b ≠ Backend.baremetal)
    (fuel Addr : Nat) (buf out : Buf) (w : World)
    (hbuf : ∀ i, i < 4 → buf i < 4294967296) :
    ∃ out' w', XAieLib_Read128 b (fuel + 5) Addr out (XAieLib_Write128 b Addr buf w)
        = some (4, out', w')
      ∧ ∀ i, i < 4 → out' i = buf i := by
  obtain ⟨w', h, _⟩ := read128_result b hb fuel Addr out (XAieLib_Write128 b Addr buf w)
  refine ⟨_, w', h, ?_⟩
  rw [write128_dev b hb]
  obtain ⟨h0, h1, h2, h3⟩ := devRead32_devWrite128 w.dev Addr buf
  rw [h0, h1, h2, h3]
  intro i hi
  have b0 := hbuf 0 (by decide)
  have b1 := hbuf 1 (by decide)
  have b2 := hbuf 2 (by decide)
  have b3 := hbuf 3 (by decide)
  interval_cases i
  · simp [bufSet, Nat.mod_eq_of_lt b0]
  · simp [bufSet, Nat.mod_eq_of_lt b1]
  · simp [bufSet, Nat.mod_eq_of_lt b2]
  · simp [bufSet, Nat.mod_eq_of_lt b3]

theorem write128_then_read128_witness :
    ∃ out' w', XAieLib_Read128 Backend.linux (0 + 5) 0x1000 (fun _ => 0)
          (XAieLib_Write128 Backend.linux 0x1000 (fun i => 0x11111111 * (i + 1)) World.empty)
        = some (4, out', w')
      ∧ ∀ i, i < 4 → out' i = (fun i => 0x11111111 * (i + 1)) i :=
  write128_then_read128 Backend.linux (by decide) 0 0x1000
    (fun i => 0x11111111 * (i + 1)) (fun _ => 0) World.empty (by decide)

/-- C4: on the simulator and the hosted backend `XAieLib_Read128(Addr, Data)`
returns after exactly four iterations; element `i` of `Data`, for
`i = 0, 1, 2, 3`, is then what `XAieLib_Read32` returns at `Addr + 4*i`
(a 64-bit sum) on the store of the call, every other element of `Data` is as
before, and the store is as before. -/
theorem read128_reads_four_words (b : Backend) (hb : b ≠ Backend.baremetal)
    (fuel Addr : Nat) (Data : Buf) (w : World) :
    ∃ Data' w', XAieLib_Read128 b (fuel + 5) Addr Data w = some (4, Data', w')
      ∧ (∀ i, i < 4 →
          Data' i = (XAieLib_Read32 b ((Addr + 4 * i) % 18446744073709551616) w).1)
      ∧ (∀ j, 4 ≤ j → Data' j = Data j)
      ∧ w'.dev = w.dev := by
  obtain ⟨w', h, hdev⟩ := read128_result b hb fuel Addr Data w
  refine ⟨_, w', h, ?_, ?_, hdev⟩
  · intro i hi
    rw [read32_fst]
    interval_cases i <;> simp [bufSet]
  · intro j hj
    have h0 : j ≠ 0 := by omega
    have h1 : j ≠ 1 := by omega
    have h2 : j ≠ 2 := by omega
    have h3 : j ≠ 3 := by omega
    simp [bufSet, h0, h1, h2, h3]

theorem read128_reads_four_words_witness :
    ∃ Data' w', XAieLib_Read128 Backend.sim (0 + 5) 0xFFFFFFFFFFFFFFF8 (fun _ => 7)
          (XAieLib_Write32 Backend.sim 4 0xAA World.empty) = some (4, Data', w')
      ∧ (∀ i, i < 4 →
          Data' i = (XAieLib_Read32 Backend.sim
            ((0xFFFFFFFFFFFFFFF8 + 4 * i) % 18446744073709551616)
            (XAieLib_Write32 Backend.sim 4 0xAA World.empty)).1)
      ∧ (∀ j, 4 ≤ j → Data' j = (fun _ => 7) j)
      ∧ w'.dev = (XAieLib_Write32 Backend.sim 4 0xAA World.empty).dev :=
  read128_reads_four_words Backend.sim (by decide) 0 0xFFFFFFFFFFFFFFF8 (fun _ => 7)
    (XAieLib_Write32 Backend.sim 4 0xAA World.empty)

/-- C9: on the bare-metal backend `XAieLib_Read128(Addr, Data)` returns after
its four empty iterations with `Data` as it was, the device store as it was,
and no backend routine called. -/
theorem read128_baremetal_untouched (fuel Addr : Nat) (Data : Buf) (w : World) :
    XAieLib_Read128 Backend.baremetal (fuel + 5) Addr Data w = some (4, Data, w) := by
  unfold XAieLib_Read128
  rw [read128_loop_unroll]
  rfl

/-! ## Dispatch without register access -/

/-- C5: on the bare-metal backend `XAieLib_LoadElf` returns `XAIELIB_FAILURE`
for every tile instance, image pointer and `LoadSym`, and leaves the device
store and the list of backend calls as they were. -/
theorem loadElf_baremetal_fails (ext : Ext) (TileInstPtr ElfPtr LoadSym : Nat) (w : World) :
    (XAieLib_LoadElf ext Backend.baremetal TileInstPtr ElfPtr LoadSym w).1
        = ext.XAIELIB_FAILURE
    ∧ (XAieLib_LoadElf ext Backend.baremetal TileInstPtr ElfPtr LoadSym w).2.calls = w.calls
    ∧ (XAieLib_LoadElf ext Backend.baremetal TileInstPtr ElfPtr LoadSym w).2.dev = w.dev :=
  ⟨rfl, rfl, rfl⟩

/-- C6: on every backend and for every `Cond`, a value that
`XAieLib_AssertNonvoid(Cond)` returns is 0.  It does return on the hosted
backend, and on the simulator and bare-metal backends whenever the backend
assertion gives control back. -/
theorem assertNonvoid_returns_zero (ext : Ext) (b : Backend) (Cond : Nat) (w : World) :
    (∀ r w', XAieLib_AssertNonvoid ext b Cond w = some (r, w') → r = 0)
    ∧ XAieLib_AssertNonvoid ext Backend.linux Cond w = some (0, w)
    ∧ (∀ d, ext.XAieSim_AssertNonvoid Cond w.dev = some d →
        ∃ w', XAieLib_AssertNonvoid ext Backend.sim Cond w = some (0, w'))
    ∧ (∀ d, ext.Xil_AssertNonvoid Cond w.dev = some d →
        ∃ w', XAieLib_AssertNonvoid ext Backend.baremetal Cond w = some (0, w')) := by
  refine ⟨?_, rfl, ?_, ?_⟩
  · intro r w' h
    cases b with
    | sim =>
      unfold XAieLib_AssertNonvoid at h
      cases hd : ext.XAieSim_AssertNonvoid Cond w.dev with
      | none => simp [hd] at h
      | some d =>
        simp only [hd, Option.some.injEq, Prod.mk.injEq] at h
        exact h.1.symm
    | baremetal =>
      unfold XAieLib_AssertNonvoid at h
      cases hd : ext.Xil_AssertNonvoid Cond w.dev with
      | none => simp [hd] at h
      | some d =>
        simp only [hd, Option.some.injEq, Prod.mk.injEq] at h
        exact h.1.symm
    | linux =>
      simp only [XAieLib_AssertNonvoid, Option.some.injEq, Prod.mk.injEq] at h
      exact h.1.symm
  · intro d hd
    refine ⟨{ dev := d, calls := w.calls ++ [Call.XAieSim_AssertNonvoid Cond] }, ?_⟩
    simp only [XAieLib_AssertNonvoid, hd]
  · intro d hd
    refine ⟨{ dev := d, calls := w.calls ++ [Call.Xil_AssertNonvoid Cond] }, ?_⟩
    simp only [XAieLib_AssertNonvoid, hd]

theorem assertNonvoid_returns_zero_witness :
    (XAieLib_AssertNonvoid Ext.sample Backend.baremetal 0 World.empty).map Prod.fst = some 0
    ∧ (XAieLib_AssertNonvoid Ext.sample Backend.baremetal 1 World.empty).map Prod.fst
        = some 0 := by
  obtain ⟨w0, h0⟩ :=
    (assertNonvoid_returns_zero Ext.sample Backend.baremetal 0 World.empty).2.2.2
      World.empty.dev rfl
  obtain ⟨w1, h1⟩ :=
    (assertNonvoid_returns_zero Ext.sample Backend.baremetal 1 World.empty).2.2.2
      World.empty.dev rfl
  rw [h0, h1]
  exact ⟨rfl, rfl⟩

/-- C7: on the simulator and the bare-metal backend, for every index, instance
pointer and address, `XAieLib_MemInit` returns the null pointer and
`XAieLib_MemGetSize`, `XAieLib_MemGetVaddr`, `XAieLib_MemGetPaddr` and
`XAieLib_MemRead32` return 0; none of them touches the device. -/
theorem mem_unsupported_returns_zero (ext : Ext) (b : Backend) (hb : b ≠ Backend.linux)
    (idx XAieLib_MemInstPtr Addr : Nat) (w : World) :
    XAieLib_MemInit ext b idx w = (0, w)
    ∧ XAieLib_MemGetSize ext b XAieLib_MemInstPtr w = (0, w)
    ∧ XAieLib_MemGetVaddr ext b XAieLib_MemInstPtr w = (0, w)
    ∧ XAieLib_MemGetPaddr ext b XAieLib_MemInstPtr w = (0, w)
    ∧ XAieLib_MemRead32 ext b XAieLib_MemInstPtr Addr w = (0, w) := by
  cases b with
  | sim => exact ⟨rfl, rfl, rfl, rfl, rfl⟩
  | baremetal => exact ⟨rfl, rfl, rfl, rfl, rfl⟩
  | linux => exact absurd rfl hb

theorem mem_unsupported_returns_zero_witness :
    XAieLib_MemInit Ext.sample Backend.sim 3 World.empty = (0, World.empty)
    ∧ XAieLib_MemGetSize Ext.sample Backend.sim 0x5000 World.empty = (0, World.empty)
    ∧ XAieLib_MemGetVaddr Ext.sample Backend.sim 0x5000 World.empty = (0, World.empty)
    ∧ XAieLib_MemGetPaddr Ext.sample Backend.sim 0x5000 World.empty = (0, World.empty)
    ∧ XAieLib_MemRead32 Ext.sample Backend.sim 0x5000 0x100 World.empty = (0, World.empty) :=
  mem_unsupported_returns_zero Ext.sample Backend.sim (by decide) 3 0x5000 0x100 World.empty

/-- C8, at `XAieLib_IntPrint("%d", 5)` on the simulator backend: the only backend
call is `printf("%d")`, with no argument after the format string; the caller's
5 does not reach `printf`. -/
theorem intPrint_sim_drops_arguments :
    (XAieLib_IntPrint Backend.sim "%d" [5] World.empty).calls = [Call.printf "%d" []]
    ∧ (XAieLib_IntPrint Backend.sim "%d" [5] World.empty).calls ≠ [Call.printf "%d" [5]] := by
  refine ⟨rfl, ?_⟩
  intro h
  simp [XAieLib_IntPrint, World.log, World.empty] at h

/-- The ellipsis arguments of `XAieLib_IntPrint` reach the output routine on the
hosted backend only: `vprintf` gets them, `printf` and `xil_printf` get the
format string alone. -/
theorem intPrint_calls (Format : String) (args : List Nat) (w : World) :
    (XAieLib_IntPrint Backend.sim Format args w).calls = w.calls ++ [Call.printf Format []]
    ∧ (XAieLib_IntPrint Backend.baremetal Format args w).calls
        = w.calls ++ [Call.xil_printf Format []]
    ∧ (XAieLib_IntPrint Backend.linux Format args w).calls
        = w.calls ++ [Call.vprintf Format args] :=
  ⟨rfl, rfl, rfl⟩

end XAieLib
